import Mathlib

/-!
Shallow embedding of the RStudio notebook chunk-execution capture
subsystem: the ChunkExecContext lifecycle from NotebookExec.cpp, the
plot-capture session wiring and teardown from NotebookPlots.cpp, and
the per-chunk output ledger and console log they drive.

Fallible external operations (directory creation, file moves, log
writes, the R graphics device, file-monitor registration) are modelled
by explicit Boolean outcome parameters; logging via LOG_ERROR has no
further effect on control flow or state and is not modelled.
-/

/-- Chunk output type code for console text, from NotebookOutput.hpp
(not in src); only distinctness of the codes is used. -/
def kChunkOutputText : Nat := 1

/-- Chunk output type code for plots, from NotebookOutput.hpp (not in
src). -/
def kChunkOutputPlot : Nat := 2

/-- Chunk output type code for HTML widgets, from NotebookOutput.hpp
(not in src). -/
def kChunkOutputHtml : Nat := 3

/-- Console text type code for input, from SessionRmdNotebook.hpp (not
in src). -/
def kChunkConsoleInput : Nat := 0

/-- Console text type code for normal output, from
SessionRmdNotebook.hpp (not in src). -/
def kChunkConsoleOutput : Nat := 1

/-- Console text type code for error output, from
SessionRmdNotebook.hpp (not in src). -/
def kChunkConsoleError : Nat := 2

/-- The plot file stem marker, the kPlotPrefix macro of
NotebookPlots.cpp. -/
def kPlotStem : String := "_rs_chunk_plot_"

/-- A file path reduced to the pieces isPlotPath inspects: its stem and
its extension. -/
structure PlotFile where
  stem : String
  extension : String
deriving DecidableEq, Repr

/-- Lowercases a string character by character, as
hasExtensionLowerCase does before comparing. -/
def toLowerStr (s : String) : String :=
  String.mk (s.data.map Char.toLower)

/-- isPlotPath from NotebookPlots.cpp: a file whose lowercased
extension is .png and whose stem starts with the plot stem marker. -/
def isPlotPath (p : PlotFile) : Bool :=
  toLowerStr p.extension == ".png" && List.isPrefixOf kPlotStem.data p.stem.data

/-- Observable actions of the plot-capture teardown path: the dev.off
call, each events onPlotOutput forwarding, and the
events onPlotOutputComplete emission. -/
inductive GraphicsAction where
  | devOff : GraphicsAction
  | plotOutput : PlotFile → GraphicsAction
  | plotComplete : GraphicsAction
deriving DecidableEq, Repr

/-- removeGraphicsDevice from NotebookPlots.cpp: issue dev.off (which
flushes any buffered device output to disk; a failure is only logged),
re-list the plot folder (contents is that listing; a failed listing is
logged and yields no entries), forward every plot-named file found,
then emit the plot-output-complete event. -/
def removeGraphicsDevice (contents : List PlotFile) : List GraphicsAction :=
  GraphicsAction.devOff ::
    ((contents.filter isPlotPath).map GraphicsAction.plotOutput ++
      [GraphicsAction.plotComplete])

/-- onMonitorUnregistered from NotebookPlots.cpp: when the file monitor
is unregistered, tear down the graphics device. -/
def onMonitorUnregistered (contents : List PlotFile) : List GraphicsAction :=
  removeGraphicsDevice contents

/-- onMonitorRegError from NotebookPlots.cpp: the registration error is
logged, then the same teardown runs immediately. -/
def onMonitorRegErrorTrace (contents : List PlotFile) : List GraphicsAction :=
  removeGraphicsDevice contents

/-- Projection selecting the plot-output forwardings of a teardown
trace. -/
def getPlotFile : GraphicsAction → Option PlotFile
  | GraphicsAction.plotOutput f => some f
  | _ => none

/-- Counts the plot-output-complete emissions in a teardown trace. -/
def countComplete : List GraphicsAction → Nat
  | [] => 0
  | GraphicsAction.plotComplete :: rest => countComplete rest + 1
  | _ :: rest => countComplete rest

/-- State of the plot file-monitor wiring of NotebookPlots.cpp: whether
unregisterMonitor is currently bound to the console-prompt signal,
whether the file monitor itself is registered, and the files forwarded
so far through events onPlotOutput. -/
structure MonitorState where
  promptSubscribed : Bool
  monitorActive : Bool
  emitted : List PlotFile
deriving DecidableEq, Repr

/-- unregisterMonitor from NotebookPlots.cpp: removes its own
console-prompt subscription, then unregisters the file monitor. -/
def unregisterMonitorStep (s : MonitorState) : MonitorState :=
  { s with promptSubscribed := false, monitorActive := false }

/-- onMonitorRegistered from NotebookPlots.cpp: subscribes
unregisterMonitor to the next console prompt, then forwards every
plot-named file of the initial listing through events onPlotOutput. -/
def onMonitorRegisteredStep (files : List PlotFile) (s : MonitorState) : MonitorState :=
  { s with promptSubscribed := true,
           emitted := s.emitted ++ files.filter isPlotPath }

/-- onPlotFilesChanged from NotebookPlots.cpp, restricted to the
FileAdded events it keeps: each added file is forwarded through
events onPlotOutput (the monitor filter already selected the paths). -/
def onPlotFilesChangedStep (adds : List PlotFile) (s : MonitorState) : MonitorState :=
  { s with emitted := s.emitted ++ adds }

/-- Delivery of a console-prompt event to the monitor wiring: it runs
unregisterMonitor only while that handler is subscribed. -/
def promptEvent (s : MonitorState) : MonitorState :=
  if s.promptSubscribed then unregisterMonitorStep s else s

/-- A plot-named file used by concrete witnesses. -/
def samplePlotFile : PlotFile :=
  { stem := "_rs_chunk_plot_001", extension := ".png" }

/-- The monitor wiring right after registerMonitor creates the monitor
and before its registration callback has run. -/
def monitorState0 : MonitorState :=
  { promptSubscribed := false, monitorActive := true, emitted := [] }

/-- The observable state of one ChunkExecContext (NotebookExec.cpp):
its two completion flags, which of its event handlers are currently
connected, and how many times events onChunkExecCompleted has been
emitted for it. -/
structure ExecState where
  consoleConnected : Bool
  plotsConnected : Bool
  promptConnected : Bool
  consoleOutputConnected : Bool
  consoleInputConnected : Bool
  plotOutputConnected : Bool
  plotCompleteConnected : Bool
  htmlOutputConnected : Bool
  completedEmits : Nat
deriving DecidableEq, Repr

/-- A freshly constructed ChunkExecContext: both flags false, no
handlers connected, nothing emitted. -/
def initExecState : ExecState :=
  { consoleConnected := false
    plotsConnected := false
    promptConnected := false
    consoleOutputConnected := false
    consoleInputConnected := false
    plotOutputConnected := false
    plotCompleteConnected := false
    htmlOutputConnected := false
    completedEmits := 0 }

namespace ChunkExecContext

/-- ChunkExecContext::connect. dirOk is the outcome of ensureDirectory
on the chunk output path: on failure the function returns after logging
and registers nothing. Otherwise it connects the console prompt,
output and input handlers, connects the plot-output and plot-complete
handlers, runs beginPlotCapture (plotCaptureOk is its outcome; on
failure the error is logged and plotsConnected keeps its value),
connects the html-output handler, runs beginWidgetCapture
(widgetCaptureOk is its outcome; its failure is only logged), and
finally sets consoleConnected. -/
def connect (dirOk plotCaptureOk widgetCaptureOk : Bool) (s : ExecState) : ExecState :=
  if dirOk then
    { s with promptConnected := true
             consoleOutputConnected := true
             consoleInputConnected := true
             plotOutputConnected := true
             plotCompleteConnected := true
             plotsConnected := if plotCaptureOk then true else s.plotsConnected
             htmlOutputConnected := true
             consoleConnected := true }
  else s

/-- ChunkExecContext::disconnect: detaches the console prompt, output
and input handlers and the html-output handler; if the plots are no
longer connected, emits events onChunkExecCompleted; finally clears
consoleConnected. -/
def disconnect (s : ExecState) : ExecState :=
  let s1 := { s with promptConnected := false
                     consoleOutputConnected := false
                     consoleInputConnected := false
                     htmlOutputConnected := false }
  let s2 := if s1.plotsConnected then s1
            else { s1 with completedEmits := s1.completedEmits + 1 }
  { s2 with consoleConnected := false }

/-- ChunkExecContext::onConsolePrompt: runs disconnect only while the
console is connected. -/
def onConsolePrompt (s : ExecState) : ExecState :=
  if s.consoleConnected then disconnect s else s

/-- ChunkExecContext::onPlotOutputComplete: detaches the plot-output
and plot-complete handlers and clears plotsConnected; if the console is
no longer connected, emits events onChunkExecCompleted. -/
def onPlotOutputComplete (s : ExecState) : ExecState :=
  let s1 := { s with plotOutputConnected := false
                     plotCompleteConnected := false
                     plotsConnected := false }
  if s1.consoleConnected then s1
  else { s1 with completedEmits := s1.completedEmits + 1 }

end ChunkExecContext

/-- The two completion-side events whose ordering the AND-join of
NotebookExec.cpp reconciles. -/
inductive ExecEvent where
  | consolePrompt : ExecEvent
  | plotComplete : ExecEvent
deriving DecidableEq, Repr

/-- Signal dispatch: an event reaches its ChunkExecContext handler only
while that handler is connected to the signal. -/
def deliver (s : ExecState) : ExecEvent → ExecState
  | ExecEvent.consolePrompt =>
      if s.promptConnected then ChunkExecContext.onConsolePrompt s else s
  | ExecEvent.plotComplete =>
      if s.plotCompleteConnected then ChunkExecContext.onPlotOutputComplete s else s

/-- Delivers a sequence of events in order. -/
def runEvents (s : ExecState) (evs : List ExecEvent) : ExecState :=
  evs.foldl deliver s

/-- The chunk console log file content and the
events onChunkConsoleOutput notifications delivered so far, both as
lists of (type, text) line records. -/
structure TextState where
  log : List (Nat × String)
  notifications : List (Nat × String)
deriving DecidableEq, Repr

namespace ChunkExecContext

/-- ChunkExecContext::onConsoleText: empty text is ignored entirely;
otherwise a (type, text) line record is written to the chunk console
log file, truncating the file first when the truncate flag is set and
appending otherwise (writeOk is the outcome of writeStringToFile; a
failure is logged and leaves the file as it was), and the
onChunkConsoleOutput notification fires in every case. -/
def onConsoleText (writeOk : Bool) (type : Nat) (output : String)
    (truncate : Bool) (s : TextState) : TextState :=
  if output.isEmpty then s
  else
    let s1 := if writeOk then
        { s with log := (if truncate then [] else s.log) ++ [(type, output)] }
      else s
    { s1 with notifications := s1.notifications ++ [(type, output)] }

end ChunkExecContext

/-- Modelled from the spec: the execution driver that feeds
onConsoleText is not in src, and section 4.1 states that the chunk
console log is created or truncated only on the first write of the
chunk and appended to thereafter. The driver therefore passes
truncate = true until a record has been written; writes succeed. -/
def runChunkConsole (evts : List (Nat × String)) (first : Bool) (s : TextState) : TextState :=
  match evts with
  | [] => s
  | (t, o) :: rest =>
      if o.isEmpty then runChunkConsole rest first s
      else runChunkConsole rest false (ChunkExecContext.onConsoleText true t o first s)

/-- The Output Ledger of one (docId, chunkId): the last assigned
ordinal and output type, and the OutputRecords enqueued so far as
(ordinal, outputType) pairs. Modelled from the spec: lastChunkOutput,
updateLastChunkOutput and enqueueChunkOutput live in
NotebookOutput.cpp, which is not in src; per section 4.3 the ledger
keeps the last-used ordinal and type, and the section 8 scenario fixes
the first assigned ordinal at 0 (lastOrdinal is none before any
output). -/
structure LedgerState where
  lastOrdinal : Option Nat
  lastType : Option Nat
  records : List (Nat × Nat)
deriving DecidableEq, Repr

/-- The ledger of a chunk that has produced no output yet. -/
def ledger0 : LedgerState :=
  { lastOrdinal := none, lastType := none, records := [] }

/-- The ordinal the next output is assigned: the incremented last-used
ordinal, or 0 when the chunk has produced no output yet. -/
def nextOrdinal (s : LedgerState) : Nat :=
  match s.lastOrdinal with
  | none => 0
  | some n => n + 1

namespace ChunkExecContext

/-- ChunkExecContext::onFileOutput: reads the ledger, increments the
ordinal, sets the output type, and moves the artifact to its canonical
target (moveOk is the outcome of the move). When the move fails the
error is logged and the handler returns before recording anything, so
the ledger is untouched; on success the accompanying library folder is
merged entry by entry (best effort, no ledger effect), the output is
enqueued, and the (ordinal, type) pair becomes the last chunk
output. -/
def onFileOutput (moveOk : Bool) (outputType : Nat) (s : LedgerState) : LedgerState :=
  let ord := nextOrdinal s
  if moveOk then
    { s with records := s.records ++ [(ord, outputType)]
             lastOrdinal := some ord
             lastType := some outputType }
  else s

end ChunkExecContext

/-- Modelled from the spec: the ledger effect of one console-text
write. The text path of chunkOutputFile is in NotebookOutput.cpp, not
in src; per section 3 and the section 8 scenario each non-empty console
line yields an OutputRecord carrying the next ordinal with the console
text output type, interleaved with the artifact ordinals (empty text is
ignored by onConsoleText before the ledger is reached). -/
def consoleTextLedger (output : String) (s : LedgerState) : LedgerState :=
  if output.isEmpty then s
  else
    { s with records := s.records ++ [(nextOrdinal s, kChunkOutputText)]
             lastOrdinal := some (nextOrdinal s)
             lastType := some kChunkOutputText }

/-- One interleaved output event of one chunk: an artifact discovery
(with the outcome of its relocation and its output type) or a console
line. -/
inductive OutEvent where
  | artifact : Bool → Nat → OutEvent
  | text : String → OutEvent
deriving DecidableEq, Repr

/-- Applies one output event to the ledger. -/
def outStep (s : LedgerState) : OutEvent → LedgerState
  | OutEvent.artifact moveOk t => ChunkExecContext.onFileOutput moveOk t s
  | OutEvent.text o => consoleTextLedger o s

/-- Applies a sequence of output events in arrival order. -/
def runOut (evs : List OutEvent) (s : LedgerState) : LedgerState :=
  evs.foldl outStep s

/-- The ledger invariant: the recorded ordinals are exactly 0..n-1 in
record order, and the last-used ordinal tracks the record count. -/
def ledgerInv (s : LedgerState) : Prop :=
  s.records.map Prod.fst = List.range s.records.length ∧
  s.lastOrdinal = (if s.records.length = 0 then none
                   else some (s.records.length - 1))

/-! ## Theorems -/

/-- Delivering an event to a context with no prompt and no
plot-complete handler connected changes nothing. -/
theorem deliver_no_handlers (s : ExecState) (e : ExecEvent)
    (hp : s.promptConnected = false) (hc : s.plotCompleteConnected = false) :
    deliver s e = s := by
  cases e <;> simp [deliver, hp, hc]

/-- Event sequences cannot move a context with no prompt and no
plot-complete handler connected. -/
theorem runEvents_no_handlers (s : ExecState) (evs : List ExecEvent)
    (hp : s.promptConnected = false) (hc : s.plotCompleteConnected = false) :
    runEvents s evs = s := by
  induction evs with
  | nil => rfl
  | cons e rest ih =>
      show runEvents (deliver s e) rest = s
      rw [deliver_no_handlers s e hp hc]
      exact ih

/-- Unfolding one delivery of an event sequence. -/
theorem runEvents_cons (s : ExecState) (e : ExecEvent) (evs : List ExecEvent) :
    runEvents s (e :: evs) = runEvents (deliver s e) evs :=
  rfl

/-- Claim C1: from the armed context, whichever of the console-prompt
and plot-complete events is delivered second emits
onChunkExecCompleted; the one delivered first emits nothing, and no
sequence of later events emits it again. -/
theorem chunkExecCompleted_fires_once (e1 e2 : ExecEvent) (h : e1 ≠ e2)
    (evs : List ExecEvent) :
    (runEvents (ChunkExecContext.connect true true true initExecState)
        [e1]).completedEmits = 0 ∧
    (runEvents (ChunkExecContext.connect true true true initExecState)
        (e1 :: e2 :: evs)).completedEmits = 1 := by
  cases e1 <;> cases e2 <;> first
  | exact absurd rfl h
  | refine ⟨by decide, ?_⟩
    rw [runEvents_cons, runEvents_cons,
        runEvents_no_handlers _ evs (by decide) (by decide)]
    decide

/-- Witness for claim C1: the console prompt first emits nothing, and
after the plot-complete event the completion count is one and stays one
through two further events. -/
theorem chunkExecCompleted_fires_once_witness :
    (runEvents (ChunkExecContext.connect true true true initExecState)
        [ExecEvent.consolePrompt]).completedEmits = 0 ∧
    (runEvents (ChunkExecContext.connect true true true initExecState)
        (ExecEvent.consolePrompt :: ExecEvent.plotComplete ::
          [ExecEvent.consolePrompt, ExecEvent.plotComplete])).completedEmits = 1 :=
  chunkExecCompleted_fires_once ExecEvent.consolePrompt ExecEvent.plotComplete
    (by decide) [ExecEvent.consolePrompt, ExecEvent.plotComplete]

/-- Claim C4: when beginPlotCapture fails during connect, the
plots-connected flag stays false, the console handlers still attach and
the console is connected, and the console prompt alone emits
onChunkExecCompleted. -/
theorem plotCaptureFailure_completes_on_prompt :
    (ChunkExecContext.connect true false true initExecState).plotsConnected = false ∧
    (ChunkExecContext.connect true false true initExecState).consoleConnected = true ∧
    (ChunkExecContext.connect true false true initExecState).promptConnected = true ∧
    (ChunkExecContext.connect true false true initExecState).consoleOutputConnected = true ∧
    (ChunkExecContext.connect true false true initExecState).consoleInputConnected = true ∧
    (runEvents (ChunkExecContext.connect true false true initExecState)
        [ExecEvent.consolePrompt]).completedEmits = 1 := by
  decide

/-- Claim C5: when the chunk output directory cannot be created,
connect leaves the context exactly as it was, and in particular a fresh
context gets no handlers and neither connection flag. -/
theorem connect_dirFailure_noop (plotOk widgetOk : Bool) (s : ExecState) :
    ChunkExecContext.connect false plotOk widgetOk s = s ∧
    (ChunkExecContext.connect false plotOk widgetOk initExecState).consoleConnected = false ∧
    (ChunkExecContext.connect false plotOk widgetOk initExecState).plotsConnected = false ∧
    (ChunkExecContext.connect false plotOk widgetOk initExecState).promptConnected = false ∧
    (ChunkExecContext.connect false plotOk widgetOk initExecState).consoleOutputConnected = false ∧
    (ChunkExecContext.connect false plotOk widgetOk initExecState).consoleInputConnected = false ∧
    (ChunkExecContext.connect false plotOk widgetOk initExecState).plotOutputConnected = false ∧
    (ChunkExecContext.connect false plotOk widgetOk initExecState).plotCompleteConnected = false ∧
    (ChunkExecContext.connect false plotOk widgetOk initExecState).htmlOutputConnected = false :=
  ⟨rfl, rfl, rfl, rfl, rfl, rfl, rfl, rfl, rfl⟩

/-- Claim C10: delivering a console-prompt event to a context whose
console is not connected changes nothing: no disconnect effect, no flag
change, no completion emission. -/
theorem consolePrompt_noop_when_disconnected (s : ExecState)
    (h : s.consoleConnected = false) :
    deliver s ExecEvent.consolePrompt = s := by
  cases hp : s.promptConnected <;>
    simp [deliver, hp, ChunkExecContext.onConsolePrompt, h]

/-- Witness for claim C10: a fresh, never connected context ignores the
console prompt. -/
theorem consolePrompt_noop_when_disconnected_witness :
    initExecState.consoleConnected = false ∧
    deliver initExecState ExecEvent.consolePrompt = initExecState :=
  ⟨rfl, consolePrompt_noop_when_disconnected initExecState rfl⟩

/-- Claim C6: onConsoleText ignores empty text entirely (nothing
persisted, no notification), and for non-empty text fires the
onChunkConsoleOutput notification exactly once whether or not the log
write succeeds; a failed write also persists nothing. -/
theorem onConsoleText_notifies (writeOk : Bool) (type : Nat)
    (output : String) (tr : Bool) (s : TextState) :
    (output.isEmpty = true →
      ChunkExecContext.onConsoleText writeOk type output tr s = s) ∧
    (output.isEmpty = false →
      (ChunkExecContext.onConsoleText writeOk type output tr s).notifications
          = s.notifications ++ [(type, output)] ∧
      (ChunkExecContext.onConsoleText false type output tr s).log = s.log) := by
  constructor
  · intro h
    simp [ChunkExecContext.onConsoleText, h]
  · intro h
    cases writeOk <;> cases tr <;>
      simp [ChunkExecContext.onConsoleText, h]

/-- Witness for claim C6: an empty line changes nothing; a non-empty
line is notified even when the write fails. -/
theorem onConsoleText_notifies_witness :
    ("" : String).isEmpty = true ∧
    ChunkExecContext.onConsoleText false 1 "" false ⟨[], []⟩ = ⟨[], []⟩ ∧
    ("hi" : String).isEmpty = false ∧
    (ChunkExecContext.onConsoleText false 1 "hi" false ⟨[], []⟩).notifications
      = [] ++ [(1, "hi")] ∧
    (ChunkExecContext.onConsoleText false 1 "hi" false ⟨[], []⟩).log = [] :=
  ⟨rfl, (onConsoleText_notifies false 1 "" false ⟨[], []⟩).1 rfl, rfl,
    ((onConsoleText_notifies false 1 "hi" false ⟨[], []⟩).2 rfl).1,
    ((onConsoleText_notifies false 1 "hi" false ⟨[], []⟩).2 rfl).2⟩

/-- After the first record is written, the driver only appends: the
final log is the prior log followed by the non-empty records. -/
theorem runChunkConsole_append_log (evts : List (Nat × String)) (s : TextState) :
    (runChunkConsole evts false s).log
      = s.log ++ evts.filter (fun p => !p.2.isEmpty) := by
  induction evts generalizing s with
  | nil => simp [runChunkConsole]
  | cons e rest ih =>
      obtain ⟨t, o⟩ := e
      by_cases h : o.isEmpty
      · simp [runChunkConsole, h, List.filter_cons, ih]
      · simp only [Bool.not_eq_true] at h
        simp [runChunkConsole, h, List.filter_cons,
              ChunkExecContext.onConsoleText, ih, List.append_assoc]

/-- Starting from the first write of the execution, the driver
truncates on that write: whenever the execution has at least one
non-empty record, the final log is exactly its non-empty records. -/
theorem runChunkConsole_first_log (evts : List (Nat × String)) (s : TextState)
    (h : evts.filter (fun p => !p.2.isEmpty) ≠ []) :
    (runChunkConsole evts true s).log
      = evts.filter (fun p => !p.2.isEmpty) := by
  induction evts generalizing s with
  | nil => exact absurd rfl h
  | cons e rest ih =>
      obtain ⟨t, o⟩ := e
      by_cases ho : o.isEmpty
      · have h2 : rest.filter (fun p => !p.2.isEmpty) ≠ [] := by
          simpa [List.filter_cons, ho] using h
        simp only [runChunkConsole, ho, if_true, List.filter_cons]
        simpa [ho] using ih s h2
      · simp only [Bool.not_eq_true] at ho
        simp [runChunkConsole, ho, List.filter_cons,
              ChunkExecContext.onConsoleText, runChunkConsole_append_log]

/-- Claim C7: over one chunk execution the console log is truncated on
the first write and appended to afterwards, so whatever the log held
before, after the run it holds exactly the non-empty line records of
this execution, in delivery order. -/
theorem chunkConsoleLog_exact (evts : List (Nat × String)) (s : TextState)
    (h : evts.filter (fun p => !p.2.isEmpty) ≠ []) :
    (runChunkConsole evts true s).log
      = evts.filter (fun p => !p.2.isEmpty) :=
  runChunkConsole_first_log evts s h

/-- Witness for claim C7: two lines written over a stale log leave
exactly those two line records. -/
theorem chunkConsoleLog_exact_witness :
    ([((1 : Nat), "hi"), (2, "warn")].filter (fun p => !p.2.isEmpty) ≠ []) ∧
    (runChunkConsole [(1, "hi"), (2, "warn")] true ⟨[(9, "stale")], []⟩).log
      = [(1, "hi"), (2, "warn")] :=
  ⟨by decide,
    (chunkConsoleLog_exact [(1, "hi"), (2, "warn")] ⟨[(9, "stale")], []⟩
        (by decide)).trans (by decide)⟩

/-- On a ledger satisfying the invariant the next ordinal is the record
count. -/
theorem nextOrdinal_eq_length (s : LedgerState) (h : ledgerInv s) :
    nextOrdinal s = s.records.length := by
  obtain ⟨h1, h2⟩ := h
  by_cases hl : s.records.length = 0
  · simp [nextOrdinal, h2, hl]
  · simp only [nextOrdinal, h2, if_neg hl]
    exact Nat.succ_pred_eq_of_pos (Nat.pos_of_ne_zero hl)

/-- Appending the next-ordinal record and updating the last pair
preserves the ledger invariant. -/
theorem ledgerInv_append (s : LedgerState) (h : ledgerInv s) (k : Nat) :
    ledgerInv { s with records := s.records ++ [(nextOrdinal s, k)]
                       lastOrdinal := some (nextOrdinal s)
                       lastType := some k } := by
  have hn := nextOrdinal_eq_length s h
  obtain ⟨h1, h2⟩ := h
  constructor
  · simp [List.map_append, h1, hn, List.range_succ]
  · simp [hn]

/-- Every output event preserves the ledger invariant. -/
theorem ledgerInv_step (s : LedgerState) (h : ledgerInv s) (e : OutEvent) :
    ledgerInv (outStep s e) := by
  cases e with
  | artifact moveOk t =>
      cases moveOk with
      | false => exact h
      | true => exact ledgerInv_append s h t
  | text o =>
      by_cases ho : o.isEmpty
      · simpa [outStep, consoleTextLedger, ho] using h
      · simpa [outStep, consoleTextLedger, ho] using
          ledgerInv_append s h kChunkOutputText

/-- Any run of output events from an invariant ledger lands on an
invariant ledger. -/
theorem runOut_inv (evs : List OutEvent) (s : LedgerState) (h : ledgerInv s) :
    ledgerInv (runOut evs s) := by
  induction evs generalizing s with
  | nil => exact h
  | cons e rest ih => exact ih (outStep s e) (ledgerInv_step s h e)

/-- Claim C3: over any interleaving of console-text and
artifact-discovery events on a fresh chunk, the ordinals recorded in
the ledger are exactly 0..n-1, with no gap or repeat, in
event-arrival order. -/
theorem ledger_ordinals_exact (evs : List OutEvent) :
    (runOut evs ledger0).records.map Prod.fst
      = List.range (runOut evs ledger0).records.length :=
  (runOut_inv evs ledger0 ⟨rfl, rfl⟩).1

/-- Counterexample to claim C2 as stated: the first artifact of a fresh
chunk is assigned ordinal 0; when its relocation fails the ledger is
left untouched, so the last-used ordinal is not advanced past 0 and the
next discovered artifact is assigned ordinal 0 again, which is not
strictly larger. -/
theorem onFileOutput_failure_counterexample :
    nextOrdinal ledger0 = 0 ∧
    ChunkExecContext.onFileOutput false kChunkOutputPlot ledger0 = ledger0 ∧
    nextOrdinal (ChunkExecContext.onFileOutput false kChunkOutputPlot ledger0) = 0 ∧
    ¬ 0 < nextOrdinal (ChunkExecContext.onFileOutput false kChunkOutputPlot ledger0) := by
  decide

/-- Claim C2 amended: when relocating the artifact fails, onFileOutput
returns before updating the ledger, so the ordinal is rolled back
rather than consumed: the ledger is unchanged and the next discovered
artifact is assigned the same ordinal. -/
theorem onFileOutput_failure_rollback (t : Nat) (s : LedgerState) :
    ChunkExecContext.onFileOutput false t s = s ∧
    nextOrdinal (ChunkExecContext.onFileOutput false t s) = nextOrdinal s :=
  ⟨rfl, rfl⟩

/-- Plot-output forwardings contribute no completion emissions. -/
theorem countComplete_map_plotOutput (l : List PlotFile) (tail : List GraphicsAction) :
    countComplete (l.map GraphicsAction.plotOutput ++ tail) = countComplete tail := by
  induction l with
  | nil => rfl
  | cons f rest ih => simpa [countComplete] using ih

/-- The plot-output forwardings of a mapped trace are exactly the
mapped files. -/
theorem filterMap_getPlotFile (l : List PlotFile) :
    (GraphicsAction.devOff ::
        (l.map GraphicsAction.plotOutput ++
          [GraphicsAction.plotComplete])).filterMap getPlotFile = l := by
  induction l with
  | nil => rfl
  | cons f rest ih =>
      simpa [List.filterMap_cons, getPlotFile] using ih

/-- Claim C8: every teardown trace starts with the dev.off command,
forwards exactly the plot-named files of the re-listed folder contents,
ends with the completion event, emits that completion exactly once, and
is produced identically by the unregistration path and by the
registration-failure path. -/
theorem teardown_order (contents : List PlotFile) :
    (removeGraphicsDevice contents).head? = some GraphicsAction.devOff ∧
    (removeGraphicsDevice contents).getLast? = some GraphicsAction.plotComplete ∧
    countComplete (removeGraphicsDevice contents) = 1 ∧
    (removeGraphicsDevice contents).filterMap getPlotFile
      = contents.filter isPlotPath ∧
    onMonitorUnregistered contents = removeGraphicsDevice contents ∧
    onMonitorRegErrorTrace contents = removeGraphicsDevice contents := by
  refine ⟨rfl, ?_, ?_, ?_, rfl, rfl⟩
  · show (GraphicsAction.devOff ::
        ((contents.filter isPlotPath).map GraphicsAction.plotOutput ++
          [GraphicsAction.plotComplete])).getLast? = some GraphicsAction.plotComplete
    rw [← List.cons_append, List.getLast?_concat]
  · show countComplete (GraphicsAction.devOff ::
        ((contents.filter isPlotPath).map GraphicsAction.plotOutput ++
          [GraphicsAction.plotComplete])) = 1
    simp [countComplete, countComplete_map_plotOutput]
  · exact filterMap_getPlotFile (contents.filter isPlotPath)

/-- Claim C9: the registration callback arms the one-shot prompt
subscription and forwards exactly the plot-named files of the initial
listing, each exactly as a live add-event would have; the next console
prompt then unregisters the monitor and removes the subscription
itself, so a second prompt changes nothing. -/
theorem monitorRegistered_spec (files : List PlotFile) (s : MonitorState) :
    (onMonitorRegisteredStep files s).promptSubscribed = true ∧
    (onMonitorRegisteredStep files s).emitted
      = s.emitted ++ files.filter isPlotPath ∧
    (∀ f : PlotFile, isPlotPath f = true →
      (onMonitorRegisteredStep [f] s).emitted
        = (onPlotFilesChangedStep [f] s).emitted) ∧
    (promptEvent (onMonitorRegisteredStep files s)).monitorActive = false ∧
    (promptEvent (onMonitorRegisteredStep files s)).promptSubscribed = false ∧
    promptEvent (promptEvent (onMonitorRegisteredStep files s))
      = promptEvent (onMonitorRegisteredStep files s) := by
  refine ⟨rfl, rfl, ?_, rfl, rfl, rfl⟩
  intro f hf
  simp [onMonitorRegisteredStep, onPlotFilesChangedStep, List.filter_cons, hf]

/-- Witness for claim C9: one plot-named file in the initial listing is
forwarded as an add-event would forward it, and the prompt tears the
monitor down. -/
theorem monitorRegistered_spec_witness :
    (onMonitorRegisteredStep [samplePlotFile] monitorState0).promptSubscribed = true ∧
    isPlotPath samplePlotFile = true ∧
    (onMonitorRegisteredStep [samplePlotFile] monitorState0).emitted
      = (onPlotFilesChangedStep [samplePlotFile] monitorState0).emitted ∧
    (promptEvent (onMonitorRegisteredStep [samplePlotFile] monitorState0)).monitorActive
      = false :=
  ⟨(monitorRegistered_spec [samplePlotFile] monitorState0).1,
    by decide,
    (monitorRegistered_spec [samplePlotFile] monitorState0).2.2.1
      samplePlotFile (by decide),
    (monitorRegistered_spec [samplePlotFile] monitorState0).2.2.2.1⟩
